import Mathlib

/-!
Shallow embedding of the NyaySetu lawyer-directory backend
(`lawyer/models.py`, `lawyer/views.py`, `complaints/models.py`).

Persistent rows are Lean structures; database state is a list of rows;
each HTTP action is a function from state and request data to a response
(and, for writes, an updated state).  Python floats on these code paths
are only ever produced by exact integer arithmetic and division, so they
are embedded as rationals.
-/

/-- Embeds `lawyer.models.City`: unique name, surrogate integer key. -/
structure City where
  id : Nat
  name : String
deriving DecidableEq, Repr

/-- Embeds `lawyer.models.LawyerProfile` joined with its `auth.User`
(`select_related("user")`) and its `service_cities` rows
(`prefetch_related`).  `user` is a 1:1 key, kept here as `userId` plus
the two name columns the free-text search touches. -/
structure LawyerProfile where
  id : Nat
  userId : Nat
  userFirstName : String
  userLastName : String
  specialization : String
  experience_years : Nat
  license_number : String
  bio : Option String
  contact_number : Option String
  address : Option String
  rating : ℚ
  total_cases : Nat
  won_cases : Nat
  service_cities : List City
deriving DecidableEq, Repr

/-- Embeds `complaints.models.Residential`. -/
structure Residential where
  house_number : String
  landmark : Option String
  city : String
  state : String
  pincode : String
deriving DecidableEq, Repr

/-- Embeds `complaints.models.IncidentLocation`. -/
structure IncidentLocation where
  city : String
  state : String
  location : String
  landmark : Option String
deriving DecidableEq, Repr

/-- Embeds `Complaint.PrivacyChoices`. -/
inductive PrivacyChoices where
  | LAWYERS_ONLY
  | PUBLIC_WITH_IDENTITY
  | PUBLIC_ANONYMOUS
deriving DecidableEq, Repr

/-- Embeds `complaints.models.Complaint`.  The two location links are nullable
(`on_delete=SET_NULL, null=True`); datetimes are embedded as naturals. -/
structure Complaint where
  id : Nat
  userId : Nat
  full_name : String
  contact_number : String
  govt_id : String
  dob : Nat
  title : String
  crime_description : String
  incident_datetime : Nat
  residential_address : Option Residential
  incident_location : Option IncidentLocation
  photo : Option String
  file_of_complaint : Option String
  witness_name : Option String
  witness_contact : Option String
  privacy_option : PrivacyChoices
  created_at : Nat
deriving DecidableEq, Repr

/-- Embeds `lawyer.models.ContactRequest`: one row per outreach, with the
`unique_user_lawyer_contact_once` constraint on `(user, lawyer)`. -/
structure ContactRequest where
  id : Nat
  userId : Nat
  lawyerId : Nat
  message : String
  status : String
  created_at : Nat
deriving DecidableEq, Repr

/-! ### Python string primitives

The repository manipulates text through `str.lower()`, `str.strip()`,
`str.split(",")`, `str.isdigit()` and `int(...)`.  The core `String`
API is byte-position based, so these are embedded as character-level
functions over `String.data` (the repository's data—city names, enum
keys, licence numbers—is ASCII, for which this is exact). -/

/-- ASCII case folding of one character (`str.lower`). -/
def pyLowerChar (c : Char) : Char :=
  if 'A' ≤ c ∧ c ≤ 'Z' then Char.ofNat (c.toNat + 32) else c

/-- Embeds `str.lower()`. -/
def pyLower (s : String) : String :=
  String.mk (s.data.map pyLowerChar)

/-- Embeds `str.isdigit()`: non-empty and all digits. -/
def pyIsDigit (s : String) : Bool :=
  !s.data.isEmpty && s.data.all Char.isDigit

/-- Embeds `int(...)` on a string of digits. -/
def pyInt (s : String) : Nat :=
  s.data.foldl (fun acc c => acc * 10 + (c.toNat - 48)) 0

/-- Embeds `str.strip()`. -/
def pyStrip (s : String) : String :=
  String.mk (((s.data.dropWhile Char.isWhitespace).reverse.dropWhile
    Char.isWhitespace).reverse)

/-- Helper for `str.split(",")`. -/
def splitCommaAux : List Char → List Char → List String
  | [], acc => [String.mk acc.reverse]
  | c :: cs, acc =>
    if c = ',' then String.mk acc.reverse :: splitCommaAux cs []
    else splitCommaAux cs (c :: acc)

/-- Embeds `str.split(",")`. -/
def pySplitComma (s : String) : List String :=
  splitCommaAux s.data []

/-- ORM `__icontains`: case-insensitive substring test, as a character
list relation.  `needleAt` checks a match at the head. -/
def needleAt : List Char → List Char → Bool
  | [], _ => true
  | _ :: _, [] => false
  | a :: as, b :: bs => a == b && needleAt as bs

/-- Substring occurrence anywhere in the haystack. -/
def occursIn (need : List Char) : List Char → Bool
  | [] => needleAt need []
  | b :: bs => needleAt need (b :: bs) || occursIn need bs

/-- Embeds `field__icontains=q`. -/
def icontains (hay need : String) : Bool :=
  occursIn (pyLower need).data (pyLower hay).data

/-- Embeds `field__icontains=q` on a nullable column: SQL `NULL LIKE ...` is
not true, so a `None` value never matches. -/
def icontainsOpt (hay : Option String) (need : String) : Bool :=
  match hay with
  | some h => icontains h need
  | none => false

/-- Embeds `field__iexact=v`. -/
def iexact (a b : String) : Bool :=
  pyLower a == pyLower b

/-! ### Win rate (`LawyerProfileSerializer.get_win_rate`) -/

/-- Python `round(x, 2)` embedded over `ℚ`: round to the nearest
hundredth. -/
def pyRound2 (x : ℚ) : ℚ :=
  ((round (x * 100) : ℤ) : ℚ) / 100

/-- Embeds `LawyerProfileSerializer.get_win_rate`: guarded by the truthiness of
`total_cases`, with a `ZeroDivisionError` handler that cannot fire once
the guard holds (rational division is total in the embedding, exactly as
the guarded Python expression never divides by zero). -/
def get_win_rate (won_cases total_cases : Nat) : ℚ :=
  if total_cases ≠ 0 then pyRound2 (((won_cases : ℚ) / (total_cases : ℚ)) * 100)
  else 0

/-- Spec-side restatement of the win-rate contract, written from the
spec's words ("round(won_cases/total_cases*100, 2) when total_cases > 0",
"0.0 exactly when total_cases = 0") for comparison with `get_win_rate`. -/
def win_rate_spec (won_cases total_cases : Nat) : ℚ :=
  if 0 < total_cases then pyRound2 ((won_cases : ℚ) / (total_cases : ℚ) * 100)
  else 0

/-! ### Case counters (`LawyerProfileViewSet.increment_cases`) -/

/-- Embeds `str(won).lower() in {"true", "1", "yes"}`, taking the already
stringified form of the loosely-typed `won` input. -/
def wonTruthy (won : String) : Bool :=
  pyLower won ∈ (["true", "1", "yes"] : List String)

/-- Embeds `increment_cases`: `total_cases = F("total_cases") + 1`, and
`won_cases = F("won_cases") + 1` exactly when the flag is truthy; both
fields are then saved. -/
def increment_cases (p : LawyerProfile) (won : String) : LawyerProfile :=
  let p1 := { p with total_cases := p.total_cases + 1 }
  if wonTruthy won then { p1 with won_cases := p1.won_cases + 1 } else p1

/-- Concrete profile used by the spec's worked example (total 3, won 1). -/
def exampleProfile31 : LawyerProfile :=
  { id := 1, userId := 1, userFirstName := "A", userLastName := "B",
    specialization := "family", experience_years := 5,
    license_number := "LIC-1", bio := none, contact_number := none,
    address := none, rating := 0, total_cases := 3, won_cases := 1,
    service_cities := [] }

/-! ### Contact requests (`LawyerProfileViewSet.contact`) -/

/-- Does a row for this `(user, lawyer)` pair already exist? -/
def contactPairExists (db : List ContactRequest) (userId lawyerId : Nat) : Bool :=
  db.any (fun r => r.userId == userId && r.lawyerId == lawyerId)

/-- Embeds `ContactRequest.objects.create(...)`: the storage layer raises an
integrity error exactly when `unique_user_lawyer_contact_once` is
violated; otherwise a row is inserted with the model defaults
(`status="pending"`). -/
def contactCreate (db : List ContactRequest) (newId userId lawyerId : Nat)
    (message : String) (now : Nat) :
    Except Unit (ContactRequest × List ContactRequest) :=
  if contactPairExists db userId lawyerId then Except.error ()
  else
    let r : ContactRequest :=
      { id := newId, userId := userId, lawyerId := lawyerId,
        message := message, status := "pending", created_at := now }
    Except.ok (r, db ++ [r])

/-- The body of a `POST .../contact` request.  The serializer marks
`status` read-only, and the action reads only `message` from the data,
so a client-supplied `status` is carried here solely to show it is
ignored. -/
structure ContactPayload where
  message : Option String
  status : Option String
deriving DecidableEq, Repr

/-- Responses of the `contact` action. -/
inductive ContactResponse where
  /-- 201 Created with the serialized row. -/
  | created (data : ContactRequest)
  /-- 400 Bad Request. -/
  | badRequest (detail : String)
deriving DecidableEq, Repr

/-- Embeds `LawyerProfileViewSet.contact`: try the insert, translate the
integrity error into a 400 response. -/
def contact (db : List ContactRequest) (newId userId lawyerId : Nat)
    (payload : ContactPayload) (now : Nat) :
    ContactResponse × List ContactRequest :=
  match contactCreate db newId userId lawyerId (payload.message.getD "") now with
  | Except.error () => (ContactResponse.badRequest "Request already sent.", db)
  | Except.ok (r, db') => (ContactResponse.created r, db')

/-- The uniqueness invariant: no two rows share a `(user, lawyer)` pair. -/
def NoDuplicatePair (db : List ContactRequest) : Prop :=
  db.Pairwise (fun a b => ¬ (a.userId = b.userId ∧ a.lawyerId = b.lawyerId))

/-! ### Profile creation (`perform_create`, serializer `create`,
`validate_service_city_ids`) -/

/-- The calling `auth.User`. -/
structure UserRec where
  id : Nat
  first_name : String
  last_name : String
  is_authenticated : Bool
deriving DecidableEq, Repr

/-- Embeds `hasattr(user, "lawyer_profile")` on the reverse 1:1 accessor. -/
def hasLawyerProfile (profiles : List LawyerProfile) (userId : Nat) : Bool :=
  profiles.any (fun p => p.userId == userId)

/-- Validated write payload of the profile serializer; `service_city_ids`
arrive already resolved to `City` rows by the primary-key related field. -/
structure ProfilePayload where
  specialization : String
  experience_years : Nat
  license_number : String
  bio : Option String
  contact_number : Option String
  address : Option String
  service_city_ids : Option (List City)
deriving DecidableEq, Repr

/-- Errors raised on the create path (DRF renders them as 400-class
responses). -/
inductive CreateError where
  | validation (detail : String)
deriving DecidableEq, Repr

/-- Embeds `LawyerProfileSerializer.validate_service_city_ids`. -/
def validate_service_city_ids (value : List City) :
    Except CreateError (List City) :=
  if !value.isEmpty && decide (value.length > 4) then
    Except.error (CreateError.validation "You can select up to 4 cities.")
  else Except.ok value

/-- Embeds `LawyerProfileSerializer.create`: authentication and
one-profile-per-user guards, then the insert and the M2M set. -/
def serializer_create (profiles : List LawyerProfile) (user : Option UserRec)
    (newId : Nat) (payload : ProfilePayload) :
    Except CreateError (LawyerProfile × List LawyerProfile) :=
  match user with
  | none =>
    Except.error (CreateError.validation "Authentication required to create a profile.")
  | some u =>
    if !u.is_authenticated then
      Except.error (CreateError.validation "Authentication required to create a profile.")
    else if hasLawyerProfile profiles u.id then
      Except.error (CreateError.validation "Profile already exists for this user.")
    else
      let p : LawyerProfile :=
        { id := newId, userId := u.id, userFirstName := u.first_name,
          userLastName := u.last_name,
          specialization := payload.specialization,
          experience_years := payload.experience_years,
          license_number := payload.license_number,
          bio := payload.bio, contact_number := payload.contact_number,
          address := payload.address, rating := 0, total_cases := 0,
          won_cases := 0,
          service_cities := payload.service_city_ids.getD [] }
      Except.ok (p, profiles ++ [p])

/-- Embeds `LawyerProfileViewSet.perform_create`: the application-level checks,
then `serializer.save(user=user)` (which runs the serializer's own
guards again). -/
def perform_create (profiles : List LawyerProfile) (user : UserRec)
    (newId : Nat) (payload : ProfilePayload) :
    Except CreateError (LawyerProfile × List LawyerProfile) :=
  if !user.is_authenticated then
    Except.error (CreateError.validation "Authentication required.")
  else if hasLawyerProfile profiles user.id then
    Except.error (CreateError.validation "Profile already exists for this user.")
  else serializer_create profiles (some user) newId payload

/-! ### City add/remove (`add_city`, `remove_city`) -/

/-- Embeds `get_object_or_404(City, pk=city_id)`. -/
def findCity (cityDb : List City) (cid : Nat) : Option City :=
  cityDb.find? (fun c => c.id == cid)

/-- M2M `service_cities.add(city)`: the auto-created through table is
unique on `(profile, city)`, so adding an already-related city is a
no-op. -/
def serviceAdd (cities : List City) (c : City) : List City :=
  if cities.any (fun x => x.id == c.id) then cities else cities ++ [c]

/-- M2M `service_cities.remove(city)`: deletes the through rows for this
city; removing an unrelated city deletes nothing. -/
def serviceRemove (cities : List City) (c : City) : List City :=
  cities.filter (fun x => !(x.id == c.id))

/-- Responses of the two city actions. -/
inductive CityActionResponse where
  /-- 200 with `{"status": ..., "city": ...}`. -/
  | ok (statusMsg : String) (city : City)
  /-- 400 Bad Request. -/
  | badRequest (detail : String)
  /-- 404 from `get_object_or_404`. -/
  | notFound
deriving DecidableEq, Repr

/-- Embeds `LawyerProfileViewSet.add_city`.  `request.data.get("city_id")` is
falsy when absent or `0`. -/
def add_city (cityDb : List City) (p : LawyerProfile) (city_id : Option Nat) :
    CityActionResponse × LawyerProfile :=
  match city_id with
  | none => (CityActionResponse.badRequest "city_id is required.", p)
  | some cid =>
    if cid == 0 then (CityActionResponse.badRequest "city_id is required.", p)
    else
      match findCity cityDb cid with
      | none => (CityActionResponse.notFound, p)
      | some c =>
        (CityActionResponse.ok "added" c,
         { p with service_cities := serviceAdd p.service_cities c })

/-- Embeds `LawyerProfileViewSet.remove_city`. -/
def remove_city (cityDb : List City) (p : LawyerProfile) (city_id : Option Nat) :
    CityActionResponse × LawyerProfile :=
  match city_id with
  | none => (CityActionResponse.badRequest "city_id is required.", p)
  | some cid =>
    if cid == 0 then (CityActionResponse.badRequest "city_id is required.", p)
    else
      match findCity cityDb cid with
      | none => (CityActionResponse.notFound, p)
      | some c =>
        (CityActionResponse.ok "removed" c,
         { p with service_cities := serviceRemove p.service_cities c })

/-! ### Directory search (`LawyerProfileViewSet.get_queryset`) -/

/-- The four optional query parameters. -/
structure DirectoryParams where
  specialization : Option String
  city : Option String
  min_experience : Option String
  q : Option String
deriving DecidableEq, Repr

/-- One service-city row satisfies the `city` filter: numeric parameter
matches `service_cities__id`, otherwise `service_cities__name__iexact`. -/
def cityRowMatches (city : String) (c : City) : Bool :=
  if pyIsDigit city then c.id == pyInt city else iexact c.name city

/-- The SQL join produced by filtering on the M2M: one result row per
`(profile, matching service city)` pair.  `.distinct()` later collapses
identical rows. -/
def cityExpand (city : String) (rows : List LawyerProfile) : List LawyerProfile :=
  rows.flatMap (fun p =>
    (p.service_cities.filter (cityRowMatches city)).map (fun _ => p))

/-- The free-text `q` disjunction over the four `icontains` columns. -/
def qMatches (q : String) (p : LawyerProfile) : Bool :=
  icontains p.userFirstName q || icontains p.userLastName q ||
    icontainsOpt p.bio q || icontains p.license_number q

/-- Embeds `if specialization: qs = qs.filter(specialization=specialization)`. -/
def specializationStep (os : Option String) (qs : List LawyerProfile) :
    List LawyerProfile :=
  match os with
  | some s =>
    if !s.data.isEmpty then qs.filter (fun p => p.specialization == s) else qs
  | none => qs

/-- Embeds `if city: ...` — digit parameters filter `service_cities__id`,
others `service_cities__name__iexact`, in both cases through the M2M
join. -/
def cityStep (oc : Option String) (qs : List LawyerProfile) :
    List LawyerProfile :=
  match oc with
  | some c => if !c.data.isEmpty then cityExpand c qs else qs
  | none => qs

/-- Embeds `if min_exp and str(min_exp).isdigit(): qs =
qs.filter(experience_years__gte=int(min_exp))`. -/
def minExpStep (om : Option String) (qs : List LawyerProfile) :
    List LawyerProfile :=
  match om with
  | some m =>
    if !m.data.isEmpty && pyIsDigit m then
      qs.filter (fun p => decide (pyInt m ≤ p.experience_years))
    else qs
  | none => qs

/-- Embeds `if q: qs = qs.filter(Q(...) | Q(...) | Q(...) | Q(...))`. -/
def qStep (oq : Option String) (qs : List LawyerProfile) :
    List LawyerProfile :=
  match oq with
  | some s => if !s.data.isEmpty then qs.filter (qMatches s) else qs
  | none => qs

/-- Embeds `LawyerProfileViewSet.get_queryset`: each truthy parameter adds one
conjunct (`min_experience` additionally only when it is all digits), and
the result is passed through `.distinct()`. -/
def get_queryset (db : List LawyerProfile) (params : DirectoryParams) :
    List LawyerProfile :=
  (qStep params.q
    (minExpStep params.min_experience
      (cityStep params.city
        (specializationStep params.specialization db)))).dedup

/-! ### Relevant-case search (`cases`, `search_cases`,
`ComplaintBriefSerializer`) -/

/-- The city disjunction of both case queries:
`Q(incident_location__city__in=names) |
Q(residential_address__city__in=names)`; a null link joins to nothing
and so never matches. -/
def complaintCityMatch (names : List String) (c : Complaint) : Bool :=
  (match c.incident_location with
   | some loc => names.contains loc.city
   | none => false) ||
  (match c.residential_address with
   | some r => names.contains r.city
   | none => false)

/-- Embeds `order_by("-created_at")`: newest first. -/
def byCreatedAtDesc (a b : Complaint) : Prop :=
  b.created_at ≤ a.created_at

instance : DecidableRel byCreatedAtDesc :=
  fun a b => Nat.decLe b.created_at a.created_at

instance : IsTotal Complaint byCreatedAtDesc :=
  ⟨fun a b => Nat.le_total b.created_at a.created_at⟩

instance : IsTrans Complaint byCreatedAtDesc :=
  ⟨fun _ _ _ h1 h2 => le_trans h2 h1⟩

/-- The shared complaint query: filter on the city disjunction, order
newest first. -/
def casesQuery (complaints : List Complaint) (names : List String) :
    List Complaint :=
  List.insertionSort byCreatedAtDesc (complaints.filter (complaintCityMatch names))

/-- DRF dotted-source traversal for `source="rel.city"`: on a null
relation, `getattr(None, "city")` raises `AttributeError`. -/
def getDotted {α : Type} (rel : Option α) (proj : α → String) :
    Except String String :=
  match rel with
  | none => Except.error "AttributeError"
  | some x => Except.ok (proj x)

/-- Embeds `Field.get_attribute` for these fields: `read_only=True` forces
`required=False`, so the `AttributeError` is converted to `SkipField`
and the field is omitted (`none`) instead of propagating. -/
def briefFieldValue {α : Type} (rel : Option α) (proj : α → String) :
    Option String :=
  match getDotted rel proj with
  | Except.error _ => none
  | Except.ok v => some v

/-- Output row of `ComplaintBriefSerializer`: exactly the six declared
fields, the two city columns optional (omitted when their relation is
null). -/
structure ComplaintBrief where
  id : Nat
  title : String
  created_at : Nat
  privacy_option : PrivacyChoices
  incident_city : Option String
  residential_city : Option String
deriving DecidableEq, Repr

/-- Embeds `ComplaintBriefSerializer.to_representation`. -/
def complaintBrief (c : Complaint) : ComplaintBrief :=
  { id := c.id, title := c.title, created_at := c.created_at,
    privacy_option := c.privacy_option,
    incident_city := briefFieldValue c.incident_location IncidentLocation.city,
    residential_city := briefFieldValue c.residential_address Residential.city }

/-- The serializer run as DRF executes it: any uncaught exception would
surface as `Except.error`; the `SkipField` handling above means none
does. -/
def complaintBriefRun (c : Complaint) : Except String ComplaintBrief :=
  Except.ok (complaintBrief c)

/-- Responses of `cases` / `search_cases`. -/
inductive CasesResponse where
  /-- 200 with the brief rows. -/
  | ok (data : List ComplaintBrief)
  /-- 400 Bad Request. -/
  | badRequest (detail : String)
  /-- 403 Forbidden. -/
  | forbidden (detail : String)
deriving DecidableEq, Repr

/-- Embeds `LawyerProfileViewSet.cases`: the caller's reverse 1:1 accessor
(`none` models `LawyerProfile.DoesNotExist`), then the shared query over
the caller's service-city names. -/
def casesAction (complaints : List Complaint) (profile : Option LawyerProfile) :
    CasesResponse :=
  match profile with
  | none => CasesResponse.forbidden "Lawyer profile required."
  | some p =>
    CasesResponse.ok
      ((casesQuery complaints (p.service_cities.map City.name)).map complaintBrief)

/-- Name resolution of `search_cases`: split the comma-separated
parameter, strip, drop empties; digit tokens are resolved to city names
through the `City` table, the rest are taken literally (ids first). -/
def resolveCityNames (cityDb : List City) (citiesParam : Option String) :
    List String :=
  match citiesParam with
  | none => []
  | some cp =>
    if (cp.data.isEmpty) then []
    else
      let tokens := ((pySplitComma cp).map pyStrip).filter
        (fun t => !t.data.isEmpty)
      let idTokens := (tokens.filter pyIsDigit).map pyInt
      let nameTokens := tokens.filter (fun t => !pyIsDigit t)
      (if !idTokens.isEmpty then
        (cityDb.filter (fun c => idTokens.contains c.id)).map City.name
       else []) ++ nameTokens

/-- Embeds `LawyerProfileViewSet.search_cases`. -/
def searchCasesAction (cityDb : List City) (complaints : List Complaint)
    (citiesParam : Option String) : CasesResponse :=
  let names := resolveCityNames cityDb citiesParam
  if names.isEmpty then CasesResponse.badRequest "Provide cities by id or name."
  else
    CasesResponse.ok ((casesQuery complaints names).map complaintBrief)

/-! ### Concrete fixtures used to instantiate the theorems -/

/-- A `City` row. -/
def exCity1 : City := ⟨1, "Delhi"⟩

/-- A `City` row. -/
def exCity2 : City := ⟨2, "Mumbai"⟩

/-- A `City` row. -/
def exCity3 : City := ⟨3, "Pune"⟩

/-- A `City` row. -/
def exCity4 : City := ⟨4, "Chennai"⟩

/-- A `City` row. -/
def exCity5 : City := ⟨5, "Kolkata"⟩

/-- The `City` table of the examples. -/
def exCityDb : List City := [exCity1, exCity2, exCity3, exCity4, exCity5]

/-- A profile already holding four service cities. -/
def exProfile4 : LawyerProfile :=
  { id := 7, userId := 7, userFirstName := "Asha", userLastName := "Rao",
    specialization := "family", experience_years := 6,
    license_number := "L7", bio := some "family disputes",
    contact_number := none, address := none, rating := 4,
    total_cases := 10, won_cases := 7,
    service_cities := [exCity1, exCity2, exCity3, exCity4] }

/-- A profile with no service cities. -/
def exProfile0 : LawyerProfile :=
  { exProfile4 with id := 8, userId := 8, license_number := "L8",
                    service_cities := [] }

/-- A profile serving Delhi and Mumbai. -/
def exProfileDM : LawyerProfile :=
  { exProfile4 with id := 9, userId := 9, license_number := "L9",
                    service_cities := [exCity1, exCity2] }

/-- An authenticated caller who owns `exProfile4` (`userId = 7`). -/
def exUser : UserRec :=
  { id := 7, first_name := "Asha", last_name := "Rao", is_authenticated := true }

/-- A write payload. -/
def exPayload : ProfilePayload :=
  { specialization := "criminal", experience_years := 2,
    license_number := "L99", bio := none, contact_number := none,
    address := none, service_city_ids := none }

/-- A complaint whose incident location is Delhi. -/
def exComplaintInc : Complaint :=
  { id := 1, userId := 20, full_name := "C One", contact_number := "111",
    govt_id := "G1", dob := 0, title := "theft", crime_description := "d1",
    incident_datetime := 5, residential_address := none,
    incident_location := some ⟨"Delhi", "DL", "Market", none⟩,
    photo := none, file_of_complaint := none, witness_name := none,
    witness_contact := none,
    privacy_option := PrivacyChoices.LAWYERS_ONLY, created_at := 5 }

/-- A complaint with a null incident location, whose residential city is
Mumbai. -/
def exComplaintRes : Complaint :=
  { exComplaintInc with
    id := 2
    created_at := 9
    incident_location := none
    residential_address := some ⟨"12", none, "Mumbai", "MH", "400001"⟩ }

/-- A complaint whose only city differs from "Delhi" in case alone. -/
def exComplaintLower : Complaint :=
  { exComplaintInc with
    id := 3
    created_at := 7
    incident_location := some ⟨"delhi", "DL", "Park", none⟩ }

/-! ## Theorems -/

/-- C1: for every `LawyerProfile`, the serialized `win_rate` is the
derived value `round((won_cases / total_cases) * 100, 2)` when
`total_cases > 0` and exactly `0.0` when `total_cases = 0`; the guarded
computation is total, so no division error arises in either case. -/
theorem win_rate_correct :
    (∀ won total : Nat, get_win_rate won total = win_rate_spec won total)
    ∧ (∀ won : Nat, get_win_rate won 0 = 0)
    ∧ (∀ won total : Nat, 0 < total →
        get_win_rate won total = pyRound2 ((won : ℚ) / (total : ℚ) * 100)) := by
  refine ⟨?_, ?_, ?_⟩
  · intro won total
    unfold get_win_rate win_rate_spec
    rcases Nat.eq_zero_or_pos total with h | h
    · simp [h]
    · rw [if_pos (Nat.pos_iff_ne_zero.mp h), if_pos h]
  · intro won
    simp [get_win_rate]
  · intro won total h
    unfold get_win_rate
    rw [if_pos (Nat.pos_iff_ne_zero.mp h)]

/-- Witness for C1 at concrete inputs. -/
theorem win_rate_correct_witness :
    (0 < 4 ∧ get_win_rate 1 4 = pyRound2 ((1 : ℚ) / (4 : ℚ) * 100))
    ∧ get_win_rate 1 0 = 0 :=
  ⟨⟨by norm_num, by simpa using win_rate_correct.2.2 1 4 (by norm_num)⟩,
    win_rate_correct.2.1 1⟩

/-- C2: `increment_cases` always increases `total_cases` by exactly 1,
and increases `won_cases` by exactly 1 precisely when the lowercased
string form of `won` is one of `"true"`, `"1"`, `"yes"`, leaving it
unchanged otherwise; in particular from `total_cases = 3, won_cases = 1`,
`won="true"` yields `(4, 2)` and `won="false"` yields `(4, 1)`. -/
theorem increment_cases_correct :
    (∀ (p : LawyerProfile) (won : String),
        (increment_cases p won).total_cases = p.total_cases + 1)
    ∧ (∀ (p : LawyerProfile) (won : String),
        (increment_cases p won).won_cases = p.won_cases + 1 ↔
          pyLower won ∈ (["true", "1", "yes"] : List String))
    ∧ (∀ (p : LawyerProfile) (won : String),
        (increment_cases p won).won_cases =
          if pyLower won ∈ (["true", "1", "yes"] : List String) then
            p.won_cases + 1
          else p.won_cases)
    ∧ (increment_cases exampleProfile31 "true").total_cases = 4
    ∧ (increment_cases exampleProfile31 "true").won_cases = 2
    ∧ (increment_cases exampleProfile31 "false").total_cases = 4
    ∧ (increment_cases exampleProfile31 "false").won_cases = 1 := by
  refine ⟨?_, ?_, ?_, by decide, by decide, by decide, by decide⟩
  · intro p won
    unfold increment_cases
    by_cases h : wonTruthy won <;> simp [h]
  · intro p won
    unfold increment_cases wonTruthy
    by_cases h : pyLower won ∈ (["true", "1", "yes"] : List String)
    · simp [h]
    · simp [h]
  · intro p won
    unfold increment_cases wonTruthy
    by_cases h : pyLower won ∈ (["true", "1", "yes"] : List String)
    · simp [h]
    · simp [h]


/-- C3: for every `(account, lawyer)` pair, the first contact request
succeeds with 201 and status `"pending"` (status never read from the
client payload); an immediate second request for the same pair is
answered with a 400 response whose detail is `"Request already sent."`
(the storage uniqueness violation caught and translated), and the
no-duplicate-pair invariant is preserved. -/
theorem contact_request_unique :
    ∀ (db : List ContactRequest) (newId newId2 userId lawyerId now now2 : Nat)
      (payload payload2 : ContactPayload),
      contactPairExists db userId lawyerId = false →
      NoDuplicatePair db →
      ∃ r : ContactRequest,
        contact db newId userId lawyerId payload now =
          (ContactResponse.created r, db ++ [r])
        ∧ r.status = "pending" ∧ r.userId = userId ∧ r.lawyerId = lawyerId
        ∧ (∀ s, contact db newId userId lawyerId { payload with status := s } now =
            contact db newId userId lawyerId payload now)
        ∧ contact (db ++ [r]) newId2 userId lawyerId payload2 now2 =
            (ContactResponse.badRequest "Request already sent.", db ++ [r])
        ∧ NoDuplicatePair (db ++ [r]) := by
  intro db newId newId2 userId lawyerId now now2 payload payload2 hfresh hnodup
  refine ⟨{ id := newId, userId := userId, lawyerId := lawyerId,
            message := payload.message.getD "", status := "pending",
            created_at := now }, ?_, rfl, rfl, rfl, fun s => rfl, ?_, ?_⟩
  · unfold contact contactCreate
    rw [hfresh]
    rfl
  · have hex : contactPairExists
        (db ++ [{ id := newId, userId := userId, lawyerId := lawyerId,
                  message := payload.message.getD "", status := "pending",
                  created_at := now }]) userId lawyerId = true := by
      unfold contactPairExists
      rw [List.any_append]
      simp
    unfold contact contactCreate
    rw [hex]
    rfl
  · unfold NoDuplicatePair
    rw [List.pairwise_append]
    refine ⟨hnodup, List.pairwise_singleton _ _, ?_⟩
    intro a ha b hb
    rw [List.mem_singleton] at hb
    subst hb
    unfold contactPairExists at hfresh
    rw [List.any_eq_false] at hfresh
    have hna := hfresh a ha
    simp only [Bool.and_eq_true, beq_iff_eq, not_and] at hna
    intro hcontra
    exact hna hcontra.1 hcontra.2

/-- Witness for C3: a fresh pair on an empty ledger, then the immediate
duplicate. -/
theorem contact_request_unique_witness :
    ∃ r : ContactRequest,
      contact [] 1 3 7 ⟨some "hi", none⟩ 0 = (ContactResponse.created r, [] ++ [r])
      ∧ r.status = "pending" ∧ r.userId = 3 ∧ r.lawyerId = 7
      ∧ (∀ s, contact [] 1 3 7 { (⟨some "hi", none⟩ : ContactPayload) with status := s } 0 =
          contact [] 1 3 7 ⟨some "hi", none⟩ 0)
      ∧ contact ([] ++ [r]) 2 3 7 ⟨none, none⟩ 5 =
          (ContactResponse.badRequest "Request already sent.", [] ++ [r])
      ∧ NoDuplicatePair ([] ++ [r]) :=
  contact_request_unique [] 1 2 3 7 0 5 ⟨some "hi", none⟩ ⟨none, none⟩
    (by decide) (List.Pairwise.nil)

/-- C8: for every account that already owns a `LawyerProfile`, creation
of a second profile is rejected by the application-level existence check
before any insert — both in `perform_create` and in the serializer's
`create` — with the conflict detail `"Profile already exists for this
user."`, whatever the payload; no new row is produced (the error branch
carries no updated table). -/
theorem second_profile_rejected :
    ∀ (profiles : List LawyerProfile) (user : UserRec) (newId : Nat)
      (payload : ProfilePayload),
      user.is_authenticated = true →
      hasLawyerProfile profiles user.id = true →
      perform_create profiles user newId payload =
        Except.error (CreateError.validation "Profile already exists for this user.")
      ∧ serializer_create profiles (some user) newId payload =
        Except.error (CreateError.validation "Profile already exists for this user.")
      ∧ (∀ result, perform_create profiles user newId payload ≠ Except.ok result) := by
  intro profiles user newId payload hauth hprof
  have h1 : perform_create profiles user newId payload =
      Except.error (CreateError.validation "Profile already exists for this user.") := by
    unfold perform_create
    rw [hauth, hprof]
    rfl
  have h2 : serializer_create profiles (some user) newId payload =
      Except.error (CreateError.validation "Profile already exists for this user.") := by
    unfold serializer_create
    simp [hauth, hprof]
  exact ⟨h1, h2, fun result hok => by rw [h1] at hok; exact Except.noConfusion hok⟩

/-- Witness for C8: `exUser` (account 7) already owns `exProfile4`. -/
theorem second_profile_rejected_witness :
    perform_create [exProfile4] exUser 99 exPayload =
      Except.error (CreateError.validation "Profile already exists for this user.")
    ∧ serializer_create [exProfile4] (some exUser) 99 exPayload =
      Except.error (CreateError.validation "Profile already exists for this user.")
    ∧ (∀ result, perform_create [exProfile4] exUser 99 exPayload ≠ Except.ok result) :=
  second_profile_rejected [exProfile4] exUser 99 exPayload (by decide) (by decide)

/-- C4 counterexample: the claim that no sequence of write operations
leaves a profile with more than 4 service cities is false — `add_city`
performs no limit check, so adding a fifth city to `exProfile4` (which
already holds 4) succeeds with a 200 response and leaves 5 cities. -/
theorem service_city_limit_counterexample :
    (add_city exCityDb exProfile4 (some 5)).1 =
      CityActionResponse.ok "added" exCity5
    ∧ (add_city exCityDb exProfile4 (some 5)).2.service_cities.length = 5 := by
  decide

/-- C4 amended: create/update writes through `service_city_ids` enforce
the limit — the serializer validator accepts a list exactly when it has
at most 4 cities (so more than 4 is rejected with a validation error and
exactly 4 succeeds) — but the `add_city` action performs no limit check:
whenever the city resolves and is not yet linked, it extends the
profile's service cities by one, regardless of the current count. -/
theorem service_city_limit_amended :
    (∀ ids : List City,
       validate_service_city_ids ids = Except.ok ids ↔ ids.length ≤ 4)
    ∧ (∀ ids : List City, 4 < ids.length →
        validate_service_city_ids ids =
          Except.error (CreateError.validation "You can select up to 4 cities."))
    ∧ (∀ (cityDb : List City) (p : LawyerProfile) (cid : Nat) (c : City),
        cid ≠ 0 → findCity cityDb cid = some c →
        p.service_cities.any (fun x => x.id == c.id) = false →
        (add_city cityDb p (some cid)).2.service_cities.length =
          p.service_cities.length + 1) := by
  have hval : ∀ ids : List City, 4 < ids.length →
      validate_service_city_ids ids =
        Except.error (CreateError.validation "You can select up to 4 cities.") := by
    intro ids h
    have hne : ids.isEmpty = false := by
      cases ids with
      | nil => simp at h
      | cons a l => rfl
    unfold validate_service_city_ids
    rw [hne]
    simp [h]
  refine ⟨?_, hval, ?_⟩
  · intro ids
    constructor
    · intro hok
      by_contra hlen
      rw [hval ids (by omega)] at hok
      exact Except.noConfusion hok
    · intro hlen
      unfold validate_service_city_ids
      have : decide (ids.length > 4) = false := by
        simp
        omega
      rw [this]
      simp
  · intro cityDb p cid c hcid hfind hany
    have hne : (cid == 0) = false := by
      simpa using hcid
    simp only [add_city, hne, hfind]
    simp only [serviceAdd, hany]
    simp

/-- Witness for C4's amended claim: exactly four cities pass validation,
five are rejected, and `add_city` on the empty profile grows the set by
one with no cap consulted. -/
theorem service_city_limit_amended_witness :
    validate_service_city_ids [exCity1, exCity2, exCity3, exCity4] =
      Except.ok [exCity1, exCity2, exCity3, exCity4]
    ∧ validate_service_city_ids [exCity1, exCity2, exCity3, exCity4, exCity5] =
      Except.error (CreateError.validation "You can select up to 4 cities.")
    ∧ (add_city exCityDb exProfile0 (some 5)).2.service_cities.length =
        exProfile0.service_cities.length + 1 :=
  ⟨(service_city_limit_amended.1 _).mpr (by decide),
   service_city_limit_amended.2.1 _ (by decide),
   service_city_limit_amended.2.2 exCityDb exProfile0 5 exCity5
     (by decide) (by decide) (by decide)⟩

/-- C7: `add_city` and `remove_city` are idempotent set-membership
operations — adding an already-linked city returns success and leaves
the profile unchanged, removing an unlinked city returns success and
leaves the profile unchanged, and on a profile with no service cities an
`add_city`/`remove_city` round trip with the same id returns to no
service cities. -/
theorem city_membership_idempotent :
    (∀ (cityDb : List City) (p : LawyerProfile) (cid : Nat) (c : City),
        cid ≠ 0 → findCity cityDb cid = some c →
        p.service_cities.any (fun x => x.id == c.id) = true →
        add_city cityDb p (some cid) = (CityActionResponse.ok "added" c, p))
    ∧ (∀ (cityDb : List City) (p : LawyerProfile) (cid : Nat) (c : City),
        cid ≠ 0 → findCity cityDb cid = some c →
        p.service_cities.any (fun x => x.id == c.id) = false →
        remove_city cityDb p (some cid) = (CityActionResponse.ok "removed" c, p))
    ∧ (∀ (cityDb : List City) (p : LawyerProfile) (cid : Nat) (c : City),
        cid ≠ 0 → findCity cityDb cid = some c →
        p.service_cities = [] →
        (remove_city cityDb (add_city cityDb p (some cid)).2
            (some cid)).2.service_cities = []) := by
  refine ⟨?_, ?_, ?_⟩
  · intro cityDb p cid c hcid hfind hany
    have hne : (cid == 0) = false := by simpa using hcid
    simp only [add_city, hne, hfind]
    simp only [serviceAdd, hany]
    simp
  · intro cityDb p cid c hcid hfind hany
    have hne : (cid == 0) = false := by simpa using hcid
    have hkeep : serviceRemove p.service_cities c = p.service_cities := by
      unfold serviceRemove
      apply List.filter_eq_self.mpr
      intro x hx
      rw [List.any_eq_false] at hany
      simpa using hany x hx
    simp only [remove_city, hne, hfind, hkeep]
    rfl
  · intro cityDb p cid c hcid hfind hempty
    have hne : (cid == 0) = false := by simpa using hcid
    simp only [add_city, hne, hfind, serviceAdd, hempty]
    simp only [remove_city, hne, hfind]
    simp [serviceRemove]

/-- Witness for C7: on `exProfile0` (no cities, id 1 resolving to Delhi)
removal of an absent city is a success no-op and the add/remove round
trip returns to zero cities. -/
theorem city_membership_idempotent_witness :
    remove_city exCityDb exProfile0 (some 1) =
      (CityActionResponse.ok "removed" exCity1, exProfile0)
    ∧ (remove_city exCityDb (add_city exCityDb exProfile0 (some 1)).2
        (some 1)).2.service_cities = [] :=
  ⟨city_membership_idempotent.2.1 exCityDb exProfile0 1 exCity1
      (by decide) (by decide) (by decide),
   city_membership_idempotent.2.2 exCityDb exProfile0 1 exCity1
      (by decide) (by decide) (by decide)⟩

/-- Membership through the specialization filter. -/
theorem mem_specializationStep {os : Option String} {qs : List LawyerProfile}
    {p : LawyerProfile} :
    p ∈ specializationStep os qs ↔
      p ∈ qs ∧ ∀ s, os = some s → s.data ≠ [] → p.specialization = s := by
  cases os with
  | none => simp [specializationStep]
  | some s =>
    by_cases h : s.data.isEmpty
    · have h0 : s.data = [] := List.isEmpty_iff.mp h
      simp [specializationStep, h, h0]
    · have hne : s.data ≠ [] := by simpa [List.isEmpty_iff] using h
      simp [specializationStep, h, List.mem_filter, hne]

/-- Membership through the M2M join rows of the city filter. -/
theorem mem_cityExpand {city : String} {rows : List LawyerProfile}
    {p : LawyerProfile} :
    p ∈ cityExpand city rows ↔
      p ∈ rows ∧ ∃ sc ∈ p.service_cities, cityRowMatches city sc = true := by
  unfold cityExpand
  rw [List.mem_flatMap]
  constructor
  · rintro ⟨x, hx, hmem⟩
    rcases List.mem_map.mp hmem with ⟨sc, hsc, rfl⟩
    rcases List.mem_filter.mp hsc with ⟨hsc', hmatch⟩
    exact ⟨hx, sc, hsc', hmatch⟩
  · rintro ⟨hp, sc, hsc, hmatch⟩
    exact ⟨p, hp, List.mem_map.mpr
      ⟨sc, List.mem_filter.mpr ⟨hsc, hmatch⟩, rfl⟩⟩

/-- Membership through the city filter. -/
theorem mem_cityStep {oc : Option String} {qs : List LawyerProfile}
    {p : LawyerProfile} :
    p ∈ cityStep oc qs ↔
      p ∈ qs ∧ ∀ c, oc = some c → c.data ≠ [] →
        ∃ sc ∈ p.service_cities, cityRowMatches c sc = true := by
  cases oc with
  | none => simp [cityStep]
  | some c =>
    by_cases h : c.data.isEmpty
    · have h0 : c.data = [] := List.isEmpty_iff.mp h
      simp [cityStep, h, h0]
    · have hne : c.data ≠ [] := by simpa [List.isEmpty_iff] using h
      simp only [cityStep, h, Bool.not_false, if_true]
      rw [mem_cityExpand]
      simp [hne]

/-- Membership through the minimum-experience filter. -/
theorem mem_minExpStep {om : Option String} {qs : List LawyerProfile}
    {p : LawyerProfile} :
    p ∈ minExpStep om qs ↔
      p ∈ qs ∧ ∀ m, om = some m → pyIsDigit m = true →
        pyInt m ≤ p.experience_years := by
  cases om with
  | none => simp [minExpStep]
  | some m =>
    by_cases hd : pyIsDigit m
    · have hne : m.data.isEmpty = false := by
        rcases Bool.and_eq_true_iff.mp hd with ⟨h1, _⟩
        simpa using h1
      simp [minExpStep, hne, hd, List.mem_filter]
    · have hd' : pyIsDigit m = false := by simpa using hd
      simp [minExpStep, hd', Bool.and_false]

/-- Membership through the free-text filter. -/
theorem mem_qStep {oq : Option String} {qs : List LawyerProfile}
    {p : LawyerProfile} :
    p ∈ qStep oq qs ↔
      p ∈ qs ∧ ∀ s, oq = some s → s.data ≠ [] → qMatches s p = true := by
  cases oq with
  | none => simp [qStep]
  | some s =>
    by_cases h : s.data.isEmpty
    · have h0 : s.data = [] := List.isEmpty_iff.mp h
      simp [qStep, h, h0]
    · have hne : s.data ≠ [] := by simpa [List.isEmpty_iff] using h
      simp [qStep, h, List.mem_filter, hne]

/-- Full membership characterization of `get_queryset`. -/
theorem mem_get_queryset {db : List LawyerProfile} {params : DirectoryParams}
    {p : LawyerProfile} :
    p ∈ get_queryset db params ↔
      p ∈ db
      ∧ (∀ s, params.specialization = some s → s.data ≠ [] →
          p.specialization = s)
      ∧ (∀ c, params.city = some c → c.data ≠ [] →
          ∃ sc ∈ p.service_cities, cityRowMatches c sc = true)
      ∧ (∀ m, params.min_experience = some m → pyIsDigit m = true →
          pyInt m ≤ p.experience_years)
      ∧ (∀ s, params.q = some s → s.data ≠ [] → qMatches s p = true) := by
  unfold get_queryset
  rw [List.mem_dedup, mem_qStep, mem_minExpStep, mem_cityStep,
    mem_specializationStep]
  tauto

/-- C5: for every combination of the optional directory parameters, a
profile is returned iff it satisfies the conjunction of the given
filters — specialization exact; city by numeric id exactly or by name
case-insensitively exactly (over its service cities); experience at
least `min_experience` (when the parameter is numeric); and free-text
`q` as a case-insensitive substring of first name, last name, bio or
licence number, OR-combined — and the result list is de-duplicated, so
no profile appears more than once even when several of its service
cities match. -/
theorem directory_filter_conjunction :
    ∀ (db : List LawyerProfile) (params : DirectoryParams) (p : LawyerProfile),
      (p ∈ get_queryset db params ↔
        p ∈ db
        ∧ (∀ s, params.specialization = some s → s.data ≠ [] →
            p.specialization = s)
        ∧ (∀ c, params.city = some c → c.data ≠ [] →
            ((pyIsDigit c = true →
                ∃ sc ∈ p.service_cities, sc.id = pyInt c)
             ∧ (pyIsDigit c = false →
                ∃ sc ∈ p.service_cities, pyLower sc.name = pyLower c)))
        ∧ (∀ m, params.min_experience = some m → pyIsDigit m = true →
            pyInt m ≤ p.experience_years)
        ∧ (∀ s, params.q = some s → s.data ≠ [] →
            (icontains p.userFirstName s = true
             ∨ icontains p.userLastName s = true
             ∨ icontainsOpt p.bio s = true
             ∨ icontains p.license_number s = true)))
      ∧ (get_queryset db params).Nodup := by
  intro db params p
  have hcity : ∀ c : String,
      (∃ sc ∈ p.service_cities, cityRowMatches c sc = true) ↔
      ((pyIsDigit c = true → ∃ sc ∈ p.service_cities, sc.id = pyInt c)
       ∧ (pyIsDigit c = false →
           ∃ sc ∈ p.service_cities, pyLower sc.name = pyLower c)) := by
    intro c
    by_cases hd : pyIsDigit c
    · simp [cityRowMatches, hd]
    · have hd' : pyIsDigit c = false := by simpa using hd
      simp [cityRowMatches, hd', iexact]
  have hq : ∀ s : String, qMatches s p = true ↔
      (icontains p.userFirstName s = true ∨ icontains p.userLastName s = true
       ∨ icontainsOpt p.bio s = true ∨ icontains p.license_number s = true) := by
    intro s
    simp [qMatches, Bool.or_eq_true, or_assoc]
  constructor
  · rw [mem_get_queryset]
    constructor
    · rintro ⟨h1, h2, h3, h4, h5⟩
      exact ⟨h1, h2, fun c hc hne => (hcity c).mp (h3 c hc hne), h4,
             fun s hs hne => (hq s).mp (h5 s hs hne)⟩
    · rintro ⟨h1, h2, h3, h4, h5⟩
      exact ⟨h1, h2, fun c hc hne => (hcity c).mpr (h3 c hc hne), h4,
             fun s hs hne => (hq s).mpr (h5 s hs hne)⟩
  · unfold get_queryset
    exact List.nodup_dedup _

/-- Witness for C5 at a concrete directory. -/
theorem directory_filter_conjunction_witness :
    (exProfileDM ∈ get_queryset [exProfileDM, exProfile4]
        ⟨some "family", some "mumbai", some "5", some "rao"⟩ ↔
      exProfileDM ∈ [exProfileDM, exProfile4]
      ∧ (∀ s, (some "family" : Option String) = some s → s.data ≠ [] →
          exProfileDM.specialization = s)
      ∧ (∀ c, (some "mumbai" : Option String) = some c → c.data ≠ [] →
          ((pyIsDigit c = true →
              ∃ sc ∈ exProfileDM.service_cities, sc.id = pyInt c)
           ∧ (pyIsDigit c = false →
              ∃ sc ∈ exProfileDM.service_cities, pyLower sc.name = pyLower c)))
      ∧ (∀ m, (some "5" : Option String) = some m → pyIsDigit m = true →
          pyInt m ≤ exProfileDM.experience_years)
      ∧ (∀ s, (some "rao" : Option String) = some s → s.data ≠ [] →
          (icontains exProfileDM.userFirstName s = true
           ∨ icontains exProfileDM.userLastName s = true
           ∨ icontainsOpt exProfileDM.bio s = true
           ∨ icontains exProfileDM.license_number s = true)))
    ∧ (get_queryset [exProfileDM, exProfile4]
        ⟨some "family", some "mumbai", some "5", some "rao"⟩).Nodup :=
  directory_filter_conjunction [exProfileDM, exProfile4]
    ⟨some "family", some "mumbai", some "5", some "rao"⟩ exProfileDM

/-- Membership in the shared complaint query. -/
theorem mem_casesQuery {complaints : List Complaint} {names : List String}
    {c : Complaint} :
    c ∈ casesQuery complaints names ↔
      c ∈ complaints ∧ complaintCityMatch names c = true := by
  unfold casesQuery
  rw [List.mem_insertionSort, List.mem_filter]

/-- The query result is ordered newest first. -/
theorem sorted_casesQuery (complaints : List Complaint) (names : List String) :
    List.Sorted byCreatedAtDesc (casesQuery complaints names) :=
  List.sorted_insertionSort byCreatedAtDesc _

/-- The city disjunction in first-order form. -/
theorem complaintCityMatch_iff {names : List String} {c : Complaint} :
    complaintCityMatch names c = true ↔
      (∃ loc, c.incident_location = some loc ∧ loc.city ∈ names)
      ∨ (∃ r, c.residential_address = some r ∧ r.city ∈ names) := by
  unfold complaintCityMatch
  cases hi : c.incident_location <;> cases hr : c.residential_address <;>
    simp

/-- C6: `cases` answers 403 when the caller has no `LawyerProfile`;
otherwise it returns exactly the complaints whose incident or
residential city lies in the caller's service-city names (for
`search_cases`, in the set resolved from the supplied ids and literal
name tokens), newest first, projected through the brief serializer —
whose output does not depend on `full_name`, `govt_id` or the
description. -/
theorem cases_actions_correct :
    (∀ complaints : List Complaint,
        casesAction complaints none =
          CasesResponse.forbidden "Lawyer profile required.")
    ∧ (∀ (complaints : List Complaint) (p : LawyerProfile),
        ∃ l : List Complaint,
          casesAction complaints (some p) =
            CasesResponse.ok (l.map complaintBrief)
          ∧ (∀ c, c ∈ l ↔ c ∈ complaints ∧
              ((∃ loc, c.incident_location = some loc ∧
                  loc.city ∈ p.service_cities.map City.name)
               ∨ (∃ r, c.residential_address = some r ∧
                  r.city ∈ p.service_cities.map City.name)))
          ∧ List.Sorted byCreatedAtDesc l)
    ∧ (∀ (cityDb : List City) (complaints : List Complaint)
          (cp : Option String),
        resolveCityNames cityDb cp ≠ [] →
        ∃ l : List Complaint,
          searchCasesAction cityDb complaints cp =
            CasesResponse.ok (l.map complaintBrief)
          ∧ (∀ c, c ∈ l ↔ c ∈ complaints ∧
              ((∃ loc, c.incident_location = some loc ∧
                  loc.city ∈ resolveCityNames cityDb cp)
               ∨ (∃ r, c.residential_address = some r ∧
                  r.city ∈ resolveCityNames cityDb cp)))
          ∧ List.Sorted byCreatedAtDesc l)
    ∧ (∀ (c : Complaint) (fn gid desc : String),
        complaintBrief { c with full_name := fn, govt_id := gid,
                                crime_description := desc } =
          complaintBrief c) := by
  refine ⟨fun complaints => rfl, ?_, ?_, fun c fn gid desc => rfl⟩
  · intro complaints p
    refine ⟨casesQuery complaints (p.service_cities.map City.name), rfl,
      ?_, sorted_casesQuery _ _⟩
    intro c
    rw [mem_casesQuery, complaintCityMatch_iff]
  · intro cityDb complaints cp hne
    have hne' : (resolveCityNames cityDb cp).isEmpty = false := by
      simpa [List.isEmpty_iff] using hne
    refine ⟨casesQuery complaints (resolveCityNames cityDb cp), ?_,
      ?_, sorted_casesQuery _ _⟩
    · unfold searchCasesAction
      simp only [hne']
      rfl
    · intro c
      rw [mem_casesQuery, complaintCityMatch_iff]

/-- Witness for C6: `search-cases?cities=Delhi,2` against a city table
where id 2 is Mumbai. -/
theorem cases_actions_correct_witness :
    ∃ l : List Complaint,
      searchCasesAction exCityDb [exComplaintInc, exComplaintRes]
          (some "Delhi,2") =
        CasesResponse.ok (l.map complaintBrief)
      ∧ (∀ c, c ∈ l ↔ c ∈ [exComplaintInc, exComplaintRes] ∧
          ((∃ loc, c.incident_location = some loc ∧
              loc.city ∈ resolveCityNames exCityDb (some "Delhi,2"))
           ∨ (∃ r, c.residential_address = some r ∧
              r.city ∈ resolveCityNames exCityDb (some "Delhi,2"))))
      ∧ List.Sorted byCreatedAtDesc l :=
  cases_actions_correct.2.2.1 exCityDb [exComplaintInc, exComplaintRes]
    (some "Delhi,2") (by decide)

/-- C9: producing the brief projection is total over every complaint the
case queries can return — a complaint matched with a null
`incident_location` (via its residential city) serializes with
`incident_city` omitted rather than raising, and symmetrically for a
null `residential_address`; the other brief fields are still produced. -/
theorem brief_serialization_total :
    ∀ (complaints : List Complaint) (names : List String) (c : Complaint),
      c ∈ casesQuery complaints names →
      complaintBriefRun c = Except.ok (complaintBrief c)
      ∧ (c.incident_location = none →
          (complaintBrief c).incident_city = none
          ∧ ∃ r, c.residential_address = some r ∧ r.city ∈ names)
      ∧ (c.residential_address = none →
          (complaintBrief c).residential_city = none
          ∧ ∃ loc, c.incident_location = some loc ∧ loc.city ∈ names)
      ∧ (complaintBrief c).id = c.id
      ∧ (complaintBrief c).title = c.title
      ∧ (complaintBrief c).created_at = c.created_at := by
  intro complaints names c hc
  have hmatch := (complaintCityMatch_iff).mp (mem_casesQuery.mp hc).2
  refine ⟨rfl, ?_, ?_, rfl, rfl, rfl⟩
  · intro hnone
    constructor
    · simp [complaintBrief, briefFieldValue, getDotted, hnone]
    · rcases hmatch with ⟨loc, hloc, _⟩ | hres
      · rw [hnone] at hloc
        exact Option.noConfusion hloc
      · exact hres
  · intro hnone
    constructor
    · simp [complaintBrief, briefFieldValue, getDotted, hnone]
    · rcases hmatch with hinc | ⟨r, hr, _⟩
      · exact hinc
      · rw [hnone] at hr
        exact Option.noConfusion hr

/-- Witness for C9: `exComplaintRes` has a null incident location and is
matched through its residential city Mumbai. -/
theorem brief_serialization_total_witness :
    complaintBriefRun exComplaintRes = Except.ok (complaintBrief exComplaintRes)
    ∧ (exComplaintRes.incident_location = none →
        (complaintBrief exComplaintRes).incident_city = none
        ∧ ∃ r, exComplaintRes.residential_address = some r
            ∧ r.city ∈ ["Mumbai"])
    ∧ (exComplaintRes.residential_address = none →
        (complaintBrief exComplaintRes).residential_city = none
        ∧ ∃ loc, exComplaintRes.incident_location = some loc
            ∧ loc.city ∈ ["Mumbai"])
    ∧ (complaintBrief exComplaintRes).id = exComplaintRes.id
    ∧ (complaintBrief exComplaintRes).title = exComplaintRes.title
    ∧ (complaintBrief exComplaintRes).created_at = exComplaintRes.created_at :=
  brief_serialization_total [exComplaintRes] ["Mumbai"] exComplaintRes
    (by decide)

/-- C10: complaint city matching in `cases`/`search_cases` is
case-sensitive exact — a complaint none of whose city values is exactly
in the name set is never returned, even when a value differs from a name
only in letter case — while the directory `city` filter matches service
city names case-insensitively, so a profile whose service-city name
differs from the parameter only in letter case is returned. -/
theorem city_match_case_sensitivity :
    (∀ (complaints : List Complaint) (names : List String) (c : Complaint),
        (∀ loc, c.incident_location = some loc → loc.city ∉ names) →
        (∀ r, c.residential_address = some r → r.city ∉ names) →
        c ∉ casesQuery complaints names)
    ∧ (∀ (db : List LawyerProfile) (p : LawyerProfile) (cty : String)
          (sc : City),
        p ∈ db → sc ∈ p.service_cities → pyIsDigit cty = false →
        cty.data ≠ [] → pyLower sc.name = pyLower cty →
        p ∈ get_queryset db
            { specialization := none, city := some cty,
              min_experience := none, q := none }) := by
  constructor
  · intro complaints names c hinc hres hmem
    rcases complaintCityMatch_iff.mp (mem_casesQuery.mp hmem).2 with
      ⟨loc, hloc, hin⟩ | ⟨r, hr, hin⟩
    · exact hinc loc hloc hin
    · exact hres r hr hin
  · intro db p cty sc hp hsc hdig hne hlower
    rw [mem_get_queryset]
    refine ⟨hp, ?_, ?_, ?_, ?_⟩
    · intro s hs
      exact absurd hs (by simp)
    · intro c hc hcne
      cases hc
      refine ⟨sc, hsc, ?_⟩
      simp [cityRowMatches, hdig, iexact, hlower]
    · intro m hm
      exact absurd hm (by simp)
    · intro s hs
      exact absurd hs (by simp)

/-- Witness for C10: a complaint whose only city is `"delhi"` is not
returned for the set `["Delhi"]`, while the directory filter
`city="delhi"` returns the profile serving `"Delhi"`. -/
theorem city_match_case_sensitivity_witness :
    exComplaintLower ∉ casesQuery [exComplaintLower] ["Delhi"]
    ∧ exProfileDM ∈ get_queryset [exProfileDM]
        { specialization := none, city := some "delhi",
          min_experience := none, q := none } :=
  ⟨city_match_case_sensitivity.1 [exComplaintLower] ["Delhi"] exComplaintLower
      (by
        intro loc h
        rw [show exComplaintLower.incident_location =
            some ⟨"delhi", "DL", "Park", none⟩ from rfl] at h
        cases h
        decide)
      (by
        intro r h
        rw [show exComplaintLower.residential_address =
            (none : Option Residential) from rfl] at h
        exact Option.noConfusion h),
   city_match_case_sensitivity.2 [exProfileDM] exProfileDM "delhi" exCity1
      (by decide) (by decide) (by decide) (by decide) (by decide)⟩
